import Mathlib

/-!
Verification of the conversation-orchestration core of `src/main.py`
(class `CoachBot` of the Telegram coach bot).

The embedding is shallow: every method that a claim touches is translated
into a pure Lean function over an explicit `BotState`, with the external
collaborators (the OpenAI assistant client, the Google Sheets whitelist,
the speech recognizer, the Telegram transport) passed in as oracle
structures.  Remote calls made by the code are recorded in
`BotState.calls`, audit-log rows in `BotState.conversations` (the SQLite
`conversations` table), and downloaded audio artifacts in
`BotState.files`.  Strings are handled through their underlying character
lists so that all definitions evaluate by kernel reduction.
-/

namespace CoachBot

/-- One remote call made by the bot against a collaborator, in the order the
source issues them.  `createThread` is `client.beta.threads.create()`
(line 572), `appendMessage` is `threads.messages.create` (line 597),
`createRun` is `threads.runs.create` (line 603), `retrieveRun` is
`threads.runs.retrieve` (line 610), `cancelRun` is `threads.runs.cancel`
(never issued anywhere in the source), `listMessages` is
`threads.messages.list` (line 624). -/
inductive RemoteCall
  | createThread
  | appendMessage
  | createRun
  | retrieveRun
  | cancelRun
  | listMessages
deriving DecidableEq, Repr

/-- Status of an assistant run as reported by `runs.retrieve`
(lines 615-619 distinguish `completed`, the set `failed/cancelled/expired`,
and everything else, which keeps the loop polling). -/
inductive RunStatus
  | completed
  | failed
  | cancelled
  | expired
  | queued
  | in_progress
  | requires_action
deriving DecidableEq, Repr

/-- The statuses treated as hard failure by line 617:
`run_status.status in ['failed', 'cancelled', 'expired']`. -/
def isHardFail : RunStatus → Bool
  | RunStatus.failed => true
  | RunStatus.cancelled => true
  | RunStatus.expired => true
  | _ => false

/-- One text block of an assistant message (`content[0].text.value`,
line 633). -/
structure TextBlock where
  value : String
deriving DecidableEq, Repr

/-- One message of `messages.list(..., order="desc", limit=1).data`
(lines 624-633). -/
structure MsgData where
  content : List TextBlock
deriving DecidableEq, Repr

/-- Mutable state of the `CoachBot` instance that the claims observe:
`user_threads` is the in-memory dict `self.user_threads` (values may be
`none` because `verify_email` line 929 stores whatever
`get_or_create_thread` returned, including `None`);
`conversation_history` is the in-memory dict flattened to rows;
`conversations` is the SQLite audit table written by `save_conversation`
(lines 756-764); `users` is the SQLite `users` table written by
`save_verified_user` (lines 746-754); `files` is the set of paths present
on disk; `calls` is the log of remote collaborator calls made so far. -/
structure BotState where
  user_threads : List (Nat × Option String)
  conversation_history : List (Nat × String × String)
  conversations : List (Nat × String × String)
  users : List (Nat × String × String)
  files : List String
  calls : List RemoteCall
deriving DecidableEq, Repr

/-- The external assistant collaborator.  `createResults n` is the outcome
of the n-th `threads.create()` call the bot has made (indexed by how many
`createThread` calls are already in the log); `appendResult` and
`runCreateResult` are the outcomes of `messages.create` and `runs.create`
for the turn under consideration; `runStatuses k` is the status the k-th
`runs.retrieve` poll reports; `latest` is the `data` list returned by
`messages.list(order="desc", limit=1)`.  Errors are collapsed to `Unit`
because the source catches every exception type uniformly. -/
structure EngineClient where
  createResults : Nat → Except Unit String
  appendResult : Except Unit Unit
  runCreateResult : Except Unit String
  runStatuses : Nat → RunStatus
  latest : List MsgData

/-- Dictionary lookup in `self.user_threads` (`chat_id in self.user_threads`
followed by `self.user_threads[chat_id]`, lines 568-569). -/
def lookupThread : List (Nat × Option String) → Nat → Option (Option String)
  | [], _ => none
  | (k, v) :: rest, key => if key = k then some v else lookupThread rest key

/-- Dictionary assignment `self.user_threads[chat_id] = ...`
(lines 573 and 929). -/
def setThread : List (Nat × Option String) → Nat → Option String → List (Nat × Option String)
  | [], key, v => [(key, v)]
  | (k, w) :: rest, key, v =>
      if key = k then (k, v) :: rest else (k, w) :: setThread rest key v

/-- Number of occurrences of one kind of remote call in the call log. -/
def countCalls : List RemoteCall → RemoteCall → Nat
  | [], _ => 0
  | x :: rest, c => (if x = c then 1 else 0) + countCalls rest c

/-- Creating a file on disk (the `voice_file.download` of line 891);
downloading to an existing path overwrites it, so the path set gains the
path at most once. -/
def addFile (files : List String) (path : String) : List String :=
  if path ∈ files then files else files ++ [path]

/-- Whether `needle` occurs at the head of `hay` (helper for the Python
substring operator `in`). -/
def leadMatch : List Char → List Char → Bool
  | [], _ => true
  | _ :: _, [] => false
  | a :: as, b :: bs => a = b && leadMatch as bs

/-- The Python substring test `needle in hay` on strings, over character
lists. -/
def containsSub (needle : List Char) : List Char → Bool
  | [] => leadMatch needle []
  | c :: rest => leadMatch needle (c :: rest) || containsSub needle rest

/-- Python `str.lower()` restricted to the ASCII range exercised by the
source's keyword and email checks. -/
def strLower (s : String) : String := ⟨s.data.map Char.toLower⟩

/-- Whitespace recognized by Python `str.strip()`. -/
def isSpaceChar (c : Char) : Bool :=
  c = ' ' || c = '\t' || c = '\n' || c = '\r'

/-- Python `str.strip()`. -/
def strTrim (s : String) : String :=
  ⟨((s.data.dropWhile isSpaceChar).reverse.dropWhile isSpaceChar).reverse⟩

/-- User-facing and internal strings of the source, verbatim. -/
def msgGenericError : String := "⚠️ Ocurrió un error al procesar tu mensaje."

/-- Reply of line 595 when no thread handle could be obtained. -/
def msgNoConnection : String := "❌ No se pudo establecer conexión con el asistente."

/-- Reply of line 631 when the assistant answer is empty. -/
def msgEmptyReply : String := "⚠️ La respuesta del asistente está vacía. Inténtalo más tarde."

/-- Reply of line 652 for an empty user message inside `process_text_message`. -/
def msgNoValidMessage : String := "⚠️ No se recibió un mensaje válido."

/-- Reply of line 668 for an empty assistant response. -/
def msgNoValidResponse : String := "⚠️ No obtuve una respuesta válida del asistente. Intenta de nuevo."

/-- Reply of line 883, the generic `except Exception` branch of `handle_message`. -/
def msgUnexpected : String := "⚠️ Ocurrió un error inesperado. Inténtalo más tarde."

/-- Reply of line 902 for `sr.UnknownValueError` (unintelligible audio). -/
def msgVoiceUnintelligible : String := "⚠️ No pude entender la nota de voz. Intenta de nuevo."

/-- Reply of line 905 for `sr.RequestError` (recognition service failure). -/
def msgVoiceService : String := "⚠️ Ocurrió un error con el servicio de reconocimiento de voz."

/-- Reply of line 909, the outer `except` branch of `handle_voice_message`. -/
def msgVoiceGeneric : String := "⚠️ Ocurrió un error procesando la nota de voz."

/-- Reply of line 684 when `fetch_products` reported an error. -/
def msgProductsError : String := "⚠️ Ocurrió un error al consultar los productos."

/-- Reply of line 688 when the product list is empty. -/
def msgProductsEmpty : String := "⚠️ No se encontraron productos."

/-- Header of the product reply of line 690. -/
def msgProductsHeader : String := "🔍 Productos recomendados:\n"

/-- Reply of line 693, the `except` branch of `process_product_query`. -/
def msgProductsGeneric : String := "⚠️ Ocurrió un error al procesar tu consulta de productos."

/-- Reply of line 924 for an email missing from the whitelist. -/
def msgNotAuthorized : String := "❌ Tu email no está en la lista autorizada. Contacta a soporte."

/-- Reply of line 918 for a syntactically invalid email. -/
def msgInvalidEmail : String := "❌ Por favor, proporciona un email válido."

/-- Reply of line 932 after successful validation. -/
def msgEmailValidated : String := "✅ Email validado. Ahora puedes hablar conmigo."

/-- Reply of line 936, the `except` branch of `verify_email`. -/
def msgVerifyError : String := "⚠️ Ocurrió un error verificando tu email."

/-- Role tag written in the first audit row of line 671. -/
def roleUser : String := "user"

/-- Role tag written in the second audit row of line 672. -/
def roleAssistant : String := "assistant"

/-- Suffix of the temporary voice-note path of line 890. -/
def voiceSuff : String := "_voice_note.ogg"

/-- The cache-probe half of `get_or_create_thread` (line 568:
`if chat_id in self.user_threads: return self.user_threads[chat_id]`).
A `some` result means a cache hit and is returned as-is, even when the
cached value is itself `none`. -/
def goc_check (st : BotState) (chat_id : Nat) : Option (Option String) :=
  lookupThread st.user_threads chat_id

/-- The miss half of `get_or_create_thread` (lines 571-578): perform the
remote `threads.create()` call; on success store the fresh id under the
chat and return it, on any exception log and return `None`.  The remote
call is recorded in the call log in both branches; `createResults` is
indexed by the number of creation calls made so far.  The result is
wrapped in `Except` to make the absence of an escaping exception explicit:
the source catches every exception, so every path returns `Except.ok`. -/
def goc_create_store (eng : EngineClient) (st : BotState) (chat_id : Nat) :
    Except Unit (Option String) × BotState :=
  let st' : BotState := { st with calls := st.calls ++ [RemoteCall.createThread] }
  match eng.createResults (countCalls st.calls RemoteCall.createThread) with
  | Except.ok tid =>
      (Except.ok (some tid),
       { st' with user_threads := setThread st'.user_threads chat_id (some tid) })
  | Except.error _ => (Except.ok none, st')

/-- `CoachBot.get_or_create_thread` (lines 566-578): return the cached
thread id when present, otherwise create one remotely and cache it;
a failed creation is caught and surfaced as `None`. -/
def get_or_create_thread (eng : EngineClient) (st : BotState) (chat_id : Nat) :
    Except Unit (Option String) × BotState :=
  match goc_check st chat_id with
  | some cached => (Except.ok cached, st)
  | none => goc_create_store eng st chat_id

/-- Outcome of the polling loop of lines 608-622. -/
inductive PollOutcome
  | completed
  | engineFailed
  | timedOut
deriving DecidableEq, Repr

/-- The polling loop of lines 608-622, fuelled.  Iteration `k` models the
loop pass whose elapsed time is `k` seconds (the loop sleeps one second
per pass and each pass makes one `runs.retrieve` call): first the status
is fetched, then `completed` breaks, then `failed/cancelled/expired`
raises, then `time.time() - start_time > 60` raises `TimeoutError`.
The second component counts the `runs.retrieve` calls made.  The fuel 62
used by `pollLoop` exceeds the largest possible number of passes (the
timeout test fires at `k = 61` at the latest), so the fuel-exhaustion
branch is unreachable. -/
def runPollLoop (status : Nat → RunStatus) : Nat → Nat → PollOutcome × Nat
  | _, 0 => (PollOutcome.timedOut, 0)
  | k, fuel + 1 =>
      if status k = RunStatus.completed then (PollOutcome.completed, 1)
      else if isHardFail (status k) then (PollOutcome.engineFailed, 1)
      else if k > 60 then (PollOutcome.timedOut, 1)
      else
        let r := runPollLoop status (k + 1) fuel
        (r.1, r.2 + 1)

/-- The polling loop started at elapsed time zero. -/
def pollLoop (status : Nat → RunStatus) : PollOutcome × Nat :=
  runPollLoop status 0 62

/-- `CoachBot.send_message_to_assistant` (lines 580-644).  The whole body
is wrapped in `try/except Exception`, whose handler returns the generic
error message (lines 642-644); the raises of lines 618 and 620 therefore
surface as that message.  On the completed path the newest message text is
returned verbatim (line 633: `messages.data[0].content[0].text.value`,
no post-processing) and appended to the in-memory history (lines 635-638). -/
def send_message_to_assistant (eng : EngineClient) (st : BotState) (chat_id : Nat)
    (user_message : String) : String × BotState :=
  match get_or_create_thread eng st chat_id with
  | (Except.error _, st1) => (msgGenericError, st1)
  | (Except.ok none, st1) => (msgNoConnection, st1)
  | (Except.ok (some _thread_id), st1) =>
      let st2 : BotState := { st1 with calls := st1.calls ++ [RemoteCall.appendMessage] }
      match eng.appendResult with
      | Except.error _ => (msgGenericError, st2)
      | Except.ok _ =>
          let st3 : BotState := { st2 with calls := st2.calls ++ [RemoteCall.createRun] }
          match eng.runCreateResult with
          | Except.error _ => (msgGenericError, st3)
          | Except.ok _run_id =>
              match pollLoop eng.runStatuses with
              | (PollOutcome.engineFailed, n) =>
                  (msgGenericError,
                   { st3 with calls := st3.calls ++ List.replicate n RemoteCall.retrieveRun })
              | (PollOutcome.timedOut, n) =>
                  (msgGenericError,
                   { st3 with calls := st3.calls ++ List.replicate n RemoteCall.retrieveRun })
              | (PollOutcome.completed, n) =>
                  let st4 : BotState :=
                    { st3 with calls :=
                        st3.calls ++ List.replicate n RemoteCall.retrieveRun
                          ++ [RemoteCall.listMessages] }
                  match eng.latest with
                  | [] => (msgEmptyReply, st4)
                  | m :: _ =>
                      match m.content with
                      | [] => (msgEmptyReply, st4)
                      | c :: _ =>
                          (c.value,
                           { st4 with conversation_history :=
                               st4.conversation_history ++ [(chat_id, roleAssistant, c.value)] })

/-- One product row of the Google Apps Script JSON (line 686 reads the
keys `titulo`, `descripcion`, `link` with defaults). -/
structure Product where
  titulo : Option String
  descripcion : Option String
  link : Option String
deriving DecidableEq, Repr

/-- Outcome of the HTTP request of `fetch_products` (lines 695-717):
a 200 response whose JSON carries a `data` list, an `httpx.TimeoutException`,
or any other failure (non-200 status or exception). -/
inductive FetchResult
  | ok (data : List Product)
  | timeout
  | failure
deriving DecidableEq, Repr

/-- The dictionary `fetch_products` hands back: either the parsed payload
or a dict carrying an `error` key (lines 709, 713, 717). -/
inductive ProductsPayload
  | err (msg : String)
  | data (items : List Product)
deriving DecidableEq, Repr

/-- `CoachBot.fetch_products` (lines 695-717). -/
def fetch_products : FetchResult → ProductsPayload
  | FetchResult.ok items => ProductsPayload.data items
  | FetchResult.timeout => ProductsPayload.err "⏳ La consulta tardó demasiado. Inténtalo más tarde."
  | FetchResult.failure => ProductsPayload.err "Error consultando Google Sheets"

/-- Default strings of the product formatting of line 686. -/
def defaultTitle : String := "Sin título"

/-- Default description of line 686. -/
def defaultDescr : String := "Sin descripción"

/-- Default link of line 686. -/
def defaultLink : String := "No disponible"

/-- One formatted product line of line 686. -/
def productLine (p : Product) : String :=
  "- " ++ p.titulo.getD defaultTitle ++ ": " ++ p.descripcion.getD defaultDescr
    ++ " (link: " ++ p.link.getD defaultLink ++ ")"

/-- Python `"\n".join`, used at line 686. -/
def joinLines : List String → String
  | [] => ""
  | [s] => s
  | s :: rest => s ++ "\n" ++ joinLines rest

/-- `CoachBot.process_product_query` (lines 680-693).  It touches no bot
state: it only queries the products endpoint and formats a reply. -/
def process_product_query (fr : FetchResult) (_query : String) : String :=
  match fetch_products fr with
  | ProductsPayload.err _ => msgProductsError
  | ProductsPayload.data items =>
      let product_list := joinLines (items.map productLine)
      if product_list = "" then msgProductsEmpty
      else msgProductsHeader ++ product_list

/-- Keywords of the product check of line 660. -/
def keywords : List String := ["producto", "comprar", "precio", "costo"]

/-- `CoachBot.save_conversation` (lines 756-764): append one audit row to
the `conversations` table. -/
def save_conversation (st : BotState) (chat_id : Nat) (role content : String) : BotState :=
  { st with conversations := st.conversations ++ [(chat_id, role, content)] }

/-- `CoachBot.process_text_message` (lines 646-678): reject an empty
message, divert product-keyword messages to `process_product_query`
(line 660), otherwise ask the assistant; if the response is non-empty,
write the two audit rows (user first, line 671; assistant second,
line 672) and return the response.  The `send_chat_action` typing
indicator of line 654 is not a user-facing text message and has no
bearing on the state the claims observe. -/
def process_text_message (eng : EngineClient) (fr : FetchResult) (st : BotState)
    (chat_id : Nat) (user_message : String) : String × BotState :=
  if strTrim user_message = ("") then (msgNoValidMessage, st)
  else if keywords.any (fun kw => containsSub kw.data (strLower user_message).data) then
    (process_product_query fr user_message, st)
  else
    let pr := send_message_to_assistant eng st chat_id user_message
    if strTrim pr.1 = ("") then (msgNoValidResponse, pr.2)
    else
      (pr.1,
       save_conversation (save_conversation pr.2 chat_id roleUser user_message)
         chat_id roleAssistant pr.1)

/-- Keyword of the product check of line 867 (`handle_message` tests only
`"producto"`). -/
def kwProducto : String := "producto"

/-- `CoachBot.handle_message` (lines 859-883).  An empty stripped message
returns silently with no reply (lines 864-865).  A `None` or empty
response raises `ValueError` (line 873), which the generic handler of
lines 881-883 converts into `msgUnexpected`; every other path sends the
response itself.  The first component lists the messages the user
receives.  The `except openai.OpenAIError` branch of lines 877-879 is
unreachable in the embedding because `process_text_message` and
`process_product_query` catch all of their own exceptions. -/
def handle_message (eng : EngineClient) (fr : FetchResult) (st : BotState)
    (chat_id : Nat) (text : String) : List String × BotState :=
  let user_message := strTrim text
  if user_message = ("") then ([], st)
  else
    let pr :=
      if containsSub kwProducto.data (strLower user_message).data then
        (process_product_query fr user_message, st)
      else process_text_message eng fr st chat_id user_message
    if strTrim pr.1 = ("") then ([msgUnexpected], pr.2)
    else ([pr.1], pr.2)

/-- Outcome of `recognizer.recognize_google` (lines 898-905):
a transcription, `sr.UnknownValueError`, `sr.RequestError`, or any other
exception (which only the outer handler of lines 907-909 catches). -/
inductive RecogResult
  | ok (text : String)
  | unknownValue
  | requestError
  | otherError
deriving Repr

/-- The voice-message collaborators: the outcome of the Telegram download
of lines 889-891 and of the speech recognition of line 898. -/
structure VoiceEnv where
  download : Except Unit Unit
  recog : RecogResult

/-- `CoachBot.handle_voice_message` (lines 885-909).  The download writes
`f"{chat_id}_voice_note.ogg"` to disk (line 890-891); no path ever removes
it.  On a successful transcription the result of `process_text_message` is
discarded without being sent (line 900), so the first component is empty
there; the two recognition failures send their distinct replies; any other
exception reaches the outer handler. -/
def handle_voice_message (eng : EngineClient) (fr : FetchResult) (venv : VoiceEnv)
    (st : BotState) (chat_id : Nat) : List String × BotState :=
  match venv.download with
  | Except.error _ => ([msgVoiceGeneric], st)
  | Except.ok _ =>
      let voice_file_path := toString chat_id ++ voiceSuff
      let st1 : BotState := { st with files := addFile st.files voice_file_path }
      match venv.recog with
      | RecogResult.ok user_message =>
          let pr := process_text_message eng fr st1 chat_id user_message
          ([], pr.2)
      | RecogResult.unknownValue => ([msgVoiceUnintelligible], st1)
      | RecogResult.requestError => ([msgVoiceService], st1)
      | RecogResult.otherError => ([msgVoiceGeneric], st1)

/-- The Google Sheets collaborator: the outcome of the
`spreadsheets().values().get(...).execute()` call of lines 940-943. -/
structure SheetsEnv where
  values : Except Unit (List (List String))

/-- `CoachBot.is_user_whitelisted` (lines 938-952): read column A, build
the lowercased first-column list skipping empty rows (line 946), and test
membership; any exception is caught and the function returns `False`
(lines 950-952). -/
def is_user_whitelisted (sh : SheetsEnv) (email : String) : Bool :=
  match sh.values with
  | Except.error _ => false
  | Except.ok values =>
      let whitelist := (values.filter (fun row => !row.isEmpty)).map
        (fun row => strLower (row.headD ""))
      whitelist.contains (strLower email)

/-- Upsert into the `users` table (`INSERT OR REPLACE`, lines 746-754). -/
def upsertUser : List (Nat × String × String) → Nat → String → String →
    List (Nat × String × String)
  | [], key, e, u => [(key, e, u)]
  | (k, e', u') :: rest, key, e, u =>
      if key = k then (k, e, u) :: rest else (k, e', u') :: upsertUser rest key e u

/-- Default username of line 915. -/
def defaultUsername : String := "Unknown"

/-- `CoachBot.verify_email` (lines 911-936, the later definition of the
two, which overrides the earlier one): normalize the email, reject a
malformed one, reject a non-whitelisted one, otherwise obtain a thread
handle, store it — whatever it is, including `None` — under the chat
(line 929), persist the user row and confirm. -/
def verify_email (sh : SheetsEnv) (eng : EngineClient) (st : BotState)
    (chat_id : Nat) (text : String) (username : Option String) : List String × BotState :=
  let user_email := strLower (strTrim text)
  let uname := username.getD defaultUsername
  if !(user_email.data.contains '@') || !(user_email.data.contains '.') then
    ([msgInvalidEmail], st)
  else if is_user_whitelisted sh user_email then
    let pr := get_or_create_thread eng st chat_id
    let tid : Option String :=
      match pr.1 with
      | Except.ok v => v
      | Except.error _ => none
    let st2 : BotState := { pr.2 with user_threads := setThread pr.2.user_threads chat_id tid }
    let st3 : BotState := { st2 with users := upsertUser st2.users chat_id user_email uname }
    ([msgEmailValidated], st3)
  else
    ([msgNotAuthorized], st)

/-- Phase of one in-flight invocation of `send_message_to_assistant` for a
fixed conversation, at the granularity of the `await` suspension points of
lines 597-622: `idle` before the body runs, `submitted` once the turn text
has been appended and `runs.create` has returned (lines 597-606),
`polling k` during the k-th pass of the status loop (lines 608-622),
`finished` after a terminal outcome. -/
inductive RunPhase
  | idle
  | submitted
  | polling (k : Nat)
  | finished
deriving DecidableEq, Repr

/-- A phase that holds a live job against the conversation's thread. -/
def inFlight : RunPhase → Bool
  | RunPhase.submitted => true
  | RunPhase.polling _ => true
  | _ => false

/-- The transitions one invocation of `send_message_to_assistant` can take
at its `await` points.  Nothing in the source guards these transitions on
any other invocation: the method takes no lock, keeps no per-chat busy
flag, and never inspects other in-flight work, so the step is enabled
regardless of the sibling task's phase. -/
inductive TaskStep : RunPhase → RunPhase → Prop
  | submit : TaskStep RunPhase.idle RunPhase.submitted
  | beginPoll : TaskStep RunPhase.submitted (RunPhase.polling 0)
  | nextPoll (k : Nat) : TaskStep (RunPhase.polling k) (RunPhase.polling (k + 1))
  | finishTurn (k : Nat) : TaskStep (RunPhase.polling k) RunPhase.finished

/-- Two concurrent invocations of `send_message_to_assistant` for the same
`chat_id` (hence the same cached thread handle): the Telegram dispatcher
runs both handler coroutines on the event loop, and every `await` of
lines 597-622 is an interleaving point. -/
structure ConvTasks where
  a : RunPhase
  b : RunPhase
deriving DecidableEq, Repr

/-- Interleaving semantics of the two invocations: either coroutine may
take its next step at any time, because the source has no per-conversation
mutual exclusion. -/
inductive SysStep : ConvTasks → ConvTasks → Prop
  | stepA {p p' b : RunPhase} : TaskStep p p' →
      SysStep { a := p, b := b } { a := p', b := b }
  | stepB {a p p' : RunPhase} : TaskStep p p' →
      SysStep { a := a, b := p } { a := a, b := p' }

/-- Number of jobs in flight against the conversation's thread. -/
def inFlightCount (s : ConvTasks) : Nat :=
  (if inFlight s.a then 1 else 0) + (if inFlight s.b then 1 else 0)

/-- A fresh bot state: empty dicts, empty tables, empty disk, no calls. -/
def emptyState : BotState :=
  { user_threads := [], conversation_history := [], conversations := [],
    users := [], files := [], calls := [] }

/-- A state whose chat 1 already has the cached thread handle `t1`. -/
def stThread : BotState := { emptyState with user_threads := [(1, some ("t1"))] }

/-- An assistant client whose run completes immediately and whose newest
message carries the single text block `v`. -/
def engCompleted (v : String) : EngineClient :=
  { createResults := fun _ => Except.ok ("tNew")
    appendResult := Except.ok ()
    runCreateResult := Except.ok ("run1")
    runStatuses := fun _ => RunStatus.completed
    latest := [{ content := [{ value := v }] }] }

/-- An assistant client built around an arbitrary status stream, with the
submission calls succeeding. -/
def engWith (status : Nat → RunStatus) : EngineClient :=
  { engCompleted ("") with runStatuses := status }

/-- A status stream stuck at `in_progress`. -/
def alwaysRunning : Nat → RunStatus := fun _ => RunStatus.in_progress

/-- An assistant client whose run never leaves `in_progress`. -/
def engTimeout : EngineClient := engWith alwaysRunning

/-- An assistant client whose every `threads.create()` call raises. -/
def failEngine : EngineClient :=
  { engCompleted ("") with createResults := fun _ => Except.error () }

/-- An assistant client whose n-th `threads.create()` call returns the
distinct handle `t0`, `t1`, ... -/
def engTwo : EngineClient :=
  { engCompleted ("") with
      createResults := fun n => if n = 0 then Except.ok ("t0") else Except.ok ("t1") }

/-- A sheets collaborator whose lookup raises. -/
def errSheets : SheetsEnv := { values := Except.error () }

/-- A products endpoint returning one well-formed row. -/
def frOk : FetchResult :=
  FetchResult.ok [{ titulo := some ("Prote"), descripcion := some ("Buena"),
                    link := some ("x") }]

/-- Whether the embedded exception channel carries a propagated error. -/
def propagatedError : Except Unit (Option String) → Bool
  | Except.error _ => true
  | Except.ok _ => false

/-- Counting distributes over list append. -/
theorem countCalls_append (l l' : List RemoteCall) (c : RemoteCall) :
    countCalls (l ++ l') c = countCalls l c + countCalls l' c := by
  induction l with
  | nil => simp [countCalls]
  | cons x t ih => simp [countCalls, ih, Nat.add_assoc]

/-- Counting a replicated list. -/
theorem countCalls_replicate (n : Nat) (c c' : RemoteCall) :
    countCalls (List.replicate n c) c' = if c = c' then n else 0 := by
  induction n with
  | zero => simp [countCalls]
  | succ m ih =>
      simp only [List.replicate, countCalls, ih]
      by_cases h : c = c'
      · simp [h]; omega
      · simp [h]

/-- Looking up the key just stored returns the stored value. -/
theorem lookupThread_set (l : List (Nat × Option String)) (k : Nat) (v : Option String) :
    lookupThread (setThread l k v) k = some v := by
  induction l with
  | nil => simp [setThread, lookupThread]
  | cons p t ih =>
      obtain ⟨k', w⟩ := p
      by_cases h : k = k'
      · subst h; simp [setThread, lookupThread]
      · simp [setThread, lookupThread, h, ih]

/-- The path just added to the disk set is present in it. -/
theorem mem_addFile (fs : List String) (p : String) : p ∈ addFile fs p := by
  by_cases h : p ∈ fs
  · simp [addFile, h]
  · simp [addFile, h]

/-- `get_or_create_thread` touches neither the disk set nor the audit
table. -/
theorem goc_frame (eng : EngineClient) (st : BotState) (chat_id : Nat) :
    (get_or_create_thread eng st chat_id).2.files = st.files ∧
    (get_or_create_thread eng st chat_id).2.conversations = st.conversations := by
  unfold get_or_create_thread goc_create_store
  cases goc_check st chat_id with
  | some cached => exact ⟨rfl, rfl⟩
  | none =>
      cases eng.createResults (countCalls st.calls RemoteCall.createThread) with
      | ok tid => exact ⟨rfl, rfl⟩
      | error e => exact ⟨rfl, rfl⟩

/-- `send_message_to_assistant` touches neither the disk set nor the audit
table: it only writes the call log, the thread dict and the in-memory
history. -/
theorem send_frame (eng : EngineClient) (st : BotState) (chat_id : Nat) (msg : String) :
    (send_message_to_assistant eng st chat_id msg).2.files = st.files ∧
    (send_message_to_assistant eng st chat_id msg).2.conversations = st.conversations := by
  have hg := goc_frame eng st chat_id
  unfold send_message_to_assistant
  rcases hgoc : get_or_create_thread eng st chat_id with ⟨r, st1⟩
  rw [hgoc] at hg
  rcases r with e | tid
  · exact hg
  · rcases tid with _ | t
    · exact hg
    · cases eng.appendResult with
      | error e => exact hg
      | ok u =>
          cases eng.runCreateResult with
          | error e => exact hg
          | ok rid =>
              rcases hp : pollLoop eng.runStatuses with ⟨o, n⟩
              cases o with
              | engineFailed => exact hg
              | timedOut => exact hg
              | completed =>
                  cases eng.latest with
                  | nil => exact hg
                  | cons m0 rest =>
                      dsimp only
                      cases hc : m0.content with
                      | nil => exact hg
                      | cons c0 rest2 => exact hg

/-- `process_text_message` never touches the disk set. -/
theorem ptm_files (eng : EngineClient) (fr : FetchResult) (st : BotState)
    (chat_id : Nat) (msg : String) :
    (process_text_message eng fr st chat_id msg).2.files = st.files := by
  have hs := (send_frame eng st chat_id msg).1
  unfold process_text_message
  by_cases h1 : strTrim msg = ("")
  · simp [h1]
  · rw [if_neg h1]
    by_cases h2 : keywords.any (fun kw => containsSub kw.data (strLower msg).data)
    · simp [h2]
    · rw [if_neg h2]
      by_cases h3 : strTrim (send_message_to_assistant eng st chat_id msg).1 = ("")
      · simpa [h3] using hs
      · simpa [h3, save_conversation] using hs

/-- With a status stream that never reports a terminal state, every pass of
the loop keeps polling until the timeout test fires, and the pass count
equals the fuel. -/
theorem runPollLoop_timeout (status : Nat → RunStatus)
    (h : ∀ k, status k ≠ RunStatus.completed ∧ isHardFail (status k) = false) :
    ∀ fuel k, k + fuel = 62 →
      runPollLoop status k fuel = (PollOutcome.timedOut, fuel) := by
  intro fuel
  induction fuel with
  | zero => intro k _; rfl
  | succ m ih =>
      intro k hk
      have h1 := (h k).1
      have h2 := (h k).2
      unfold runPollLoop
      rw [if_neg h1, if_neg (by simp [h2])]
      by_cases hgt : k > 60
      · have : k = 61 := by omega
        have : m = 0 := by omega
        subst this
        simp [hgt]
      · rw [if_neg hgt]
        have : (k + 1) + m = 62 := by omega
        rw [ih (k + 1) this]

/-- With a never-terminal status stream the loop makes exactly 62 polls
(elapsed seconds 0 through 61) and times out. -/
theorem pollLoop_timeout (status : Nat → RunStatus)
    (h : ∀ k, status k ≠ RunStatus.completed ∧ isHardFail (status k) = false) :
    pollLoop status = (PollOutcome.timedOut, 62) :=
  runPollLoop_timeout status h 62 0 rfl

/-- C1: the claim demands single-flight per context — at most one job ever
Submitted or Polling against one conversation's thread, with a second
concurrent turn made to wait or be rejected.  The source has no such
guard: `send_message_to_assistant` takes no lock and keeps no busy flag,
so under the interleaving semantics of the event loop the state in which
both invocations hold an in-flight job against the same thread is
reachable — each task just takes its own `submit` step.  This violates the
claimed invariant `inFlightCount ≤ 1`. -/
theorem C1_no_single_flight_guard :
    Relation.ReflTransGen SysStep { a := RunPhase.idle, b := RunPhase.idle }
      { a := RunPhase.submitted, b := RunPhase.submitted } ∧
    inFlightCount { a := RunPhase.submitted, b := RunPhase.submitted } = 2 := by
  constructor
  · exact Relation.ReflTransGen.head (SysStep.stepA TaskStep.submit)
      (Relation.ReflTransGen.single (SysStep.stepB TaskStep.submit))
  · rfl

/-- C2 counterexample: two interleaved calls of `get_or_create_thread` for
the fresh conversation 7 both run the cache probe of line 568 against the
initial state (both miss, because neither has stored yet: the remote
`threads.create()` of line 572 is an `await` point), then each runs the
create-and-store half.  The two calls make two remote creations and return
the different handles `t0` and `t1`, refuting "repeated calls return the
same ContextHandle as the first call" and the spec's "exactly one remote
creation call is made". -/
theorem C2_counterexample :
    goc_check emptyState 7 = none ∧
    (goc_create_store engTwo emptyState 7).1 = Except.ok (some ("t0")) ∧
    (goc_create_store engTwo (goc_create_store engTwo emptyState 7).2 7).1
      = Except.ok (some ("t1")) ∧
    (some ("t0") : Option String) ≠ some ("t1") ∧
    countCalls (goc_create_store engTwo (goc_create_store engTwo emptyState 7).2 7).2.calls
      RemoteCall.createThread = 2 :=
  ⟨rfl, rfl, rfl, by decide, rfl⟩

/-- C2 amended: sequentially, `get_or_create_thread` is idempotent — when
the cache misses and the remote creation succeeds, the call returns the
fresh handle, and a second (non-overlapping) call returns the same handle
from the cache, changes nothing, and makes no further remote creation
(exactly one creation in total); only overlapping first calls can
duplicate the creation. -/
theorem C2_amended_idempotent (eng : EngineClient) (st : BotState) (chat_id : Nat) (tid : String)
    (hmiss : goc_check st chat_id = none)
    (hok : eng.createResults (countCalls st.calls RemoteCall.createThread) = Except.ok tid) :
    (get_or_create_thread eng st chat_id).1 = Except.ok (some tid) ∧
    (get_or_create_thread eng (get_or_create_thread eng st chat_id).2 chat_id).1
      = Except.ok (some tid) ∧
    (get_or_create_thread eng (get_or_create_thread eng st chat_id).2 chat_id).2
      = (get_or_create_thread eng st chat_id).2 ∧
    countCalls (get_or_create_thread eng (get_or_create_thread eng st chat_id).2 chat_id).2.calls
      RemoteCall.createThread = countCalls st.calls RemoteCall.createThread + 1 := by
  have h1 : get_or_create_thread eng st chat_id =
      (Except.ok (some tid),
       { st with
           user_threads := setThread st.user_threads chat_id (some tid),
           calls := st.calls ++ [RemoteCall.createThread] }) := by
    unfold get_or_create_thread
    rw [hmiss]
    unfold goc_create_store
    rw [hok]
  have h2 : goc_check (get_or_create_thread eng st chat_id).2 chat_id = some (some tid) := by
    rw [h1]
    unfold goc_check
    exact lookupThread_set st.user_threads chat_id (some tid)
  have h3 : ∀ s1 : BotState, goc_check s1 chat_id = some (some tid) →
      get_or_create_thread eng s1 chat_id = (Except.ok (some tid), s1) := by
    intro s1 hh
    unfold get_or_create_thread
    rw [hh]
  refine ⟨by rw [h1], by rw [h3 _ h2], by rw [h3 _ h2], ?_⟩
  rw [h3 _ h2, h1]
  dsimp only
  rw [countCalls_append]
  simp [countCalls]

/-- C2 amended, concrete run: a fresh state, chat 7, a client whose
creation succeeds with handle `tNew`. -/
theorem C2_amended_idempotent_witness :
    goc_check emptyState 7 = none ∧
    (engCompleted ("x")).createResults (countCalls emptyState.calls RemoteCall.createThread)
      = Except.ok ("tNew") ∧
    ((get_or_create_thread (engCompleted ("x")) emptyState 7).1 = Except.ok (some ("tNew")) ∧
     (get_or_create_thread (engCompleted ("x"))
        (get_or_create_thread (engCompleted ("x")) emptyState 7).2 7).1
       = Except.ok (some ("tNew")) ∧
     (get_or_create_thread (engCompleted ("x"))
        (get_or_create_thread (engCompleted ("x")) emptyState 7).2 7).2
       = (get_or_create_thread (engCompleted ("x")) emptyState 7).2 ∧
     countCalls (get_or_create_thread (engCompleted ("x"))
        (get_or_create_thread (engCompleted ("x")) emptyState 7).2 7).2.calls
       RemoteCall.createThread = countCalls emptyState.calls RemoteCall.createThread + 1) :=
  ⟨rfl, rfl, C2_amended_idempotent (engCompleted ("x")) emptyState 7 ("tNew") rfl rfl⟩

/-- C5 counterexample: when the remote creation raises,
`get_or_create_thread` does not propagate the error — the handler of
lines 576-578 catches it and the function returns the ordinary value
`None` (`Except.ok none` in the embedding, with no exception escaping). -/
theorem C5_counterexample :
    ¬ (propagatedError (get_or_create_thread failEngine emptyState 1).1 = true) := by
  decide

/-- C5 amended: when remote handle creation fails, `get_or_create_thread`
catches the error and returns `None` instead of propagating it; no
mapping is stored for the conversation, and the caller
`send_message_to_assistant` turns the `None` into the connection-failure
reply. -/
theorem C5_amended_no_persist (eng : EngineClient) (st : BotState) (chat_id : Nat) (msg : String)
    (hmiss : goc_check st chat_id = none)
    (hfail : eng.createResults (countCalls st.calls RemoteCall.createThread) = Except.error ()) :
    (get_or_create_thread eng st chat_id).1 = Except.ok none ∧
    (get_or_create_thread eng st chat_id).2.user_threads = st.user_threads ∧
    (send_message_to_assistant eng st chat_id msg).1 = msgNoConnection := by
  have h1 : get_or_create_thread eng st chat_id =
      (Except.ok none, { st with calls := st.calls ++ [RemoteCall.createThread] }) := by
    unfold get_or_create_thread
    rw [hmiss]
    unfold goc_create_store
    rw [hfail]
  refine ⟨by rw [h1], by rw [h1], ?_⟩
  unfold send_message_to_assistant
  rw [h1]

/-- C5 amended, concrete run: a fresh state, chat 1, a client whose every
creation call raises. -/
theorem C5_amended_no_persist_witness :
    goc_check emptyState 1 = none ∧
    failEngine.createResults (countCalls emptyState.calls RemoteCall.createThread)
      = Except.error () ∧
    ((get_or_create_thread failEngine emptyState 1).1 = Except.ok none ∧
     (get_or_create_thread failEngine emptyState 1).2.user_threads = emptyState.user_threads ∧
     (send_message_to_assistant failEngine emptyState 1 ("hola")).1 = msgNoConnection) :=
  ⟨rfl, rfl, C5_amended_no_persist failEngine emptyState 1 ("hola") rfl rfl⟩

/-- C3 counterexample: with a run that never reaches a terminal status,
the turn ends in the generic processing-error reply — not a dedicated
"took too long" reply — and the call log contains zero `runs.cancel`
calls, refuting "issues exactly one remote cancellation (CancelJob)
request".  (The `TimeoutError` raised at line 620 is swallowed by the
`except Exception` handler of lines 642-644; no cancel call exists
anywhere in the source.) -/
theorem C3_counterexample :
    (send_message_to_assistant engTimeout stThread 1 ("hola")).1 = msgGenericError ∧
    countCalls (send_message_to_assistant engTimeout stThread 1 ("hola")).2.calls
      RemoteCall.cancelRun = 0 ∧
    ¬ (countCalls (send_message_to_assistant engTimeout stThread 1 ("hola")).2.calls
        RemoteCall.cancelRun = 1) :=
  ⟨rfl, rfl, by decide⟩

/-- C3 amended: if no poll observes a terminal status, the runner does
stop within the budget plus one poll interval — exactly 62 status checks,
i.e. elapsed seconds 0 through 61 against the 60-second budget — but it
issues no remote cancellation at all, and the caller receives the generic
processing-error reply rather than a dedicated "took too long" one. -/
theorem C3_amended_timeout (status : Nat → RunStatus) (st : BotState) (chat_id : Nat)
    (tid msg : String)
    (hlook : lookupThread st.user_threads chat_id = some (some tid))
    (hterm : ∀ k, status k ≠ RunStatus.completed ∧ isHardFail (status k) = false) :
    send_message_to_assistant (engWith status) st chat_id msg
      = (msgGenericError,
         { st with calls := st.calls ++ [RemoteCall.appendMessage] ++ [RemoteCall.createRun]
             ++ List.replicate 62 RemoteCall.retrieveRun }) ∧
    countCalls (send_message_to_assistant (engWith status) st chat_id msg).2.calls
      RemoteCall.cancelRun = countCalls st.calls RemoteCall.cancelRun ∧
    countCalls (send_message_to_assistant (engWith status) st chat_id msg).2.calls
      RemoteCall.retrieveRun = countCalls st.calls RemoteCall.retrieveRun + 62 := by
  have hgoc : get_or_create_thread (engWith status) st chat_id = (Except.ok (some tid), st) := by
    unfold get_or_create_thread goc_check
    rw [hlook]
  have hpoll : pollLoop status = (PollOutcome.timedOut, 62) := pollLoop_timeout status hterm
  have hsend : send_message_to_assistant (engWith status) st chat_id msg
      = (msgGenericError,
         { st with calls := st.calls ++ [RemoteCall.appendMessage] ++ [RemoteCall.createRun]
             ++ List.replicate 62 RemoteCall.retrieveRun }) := by
    unfold send_message_to_assistant
    rw [hgoc]
    dsimp only [engWith, engCompleted]
    rw [hpoll]
  refine ⟨hsend, ?_, ?_⟩
  · rw [hsend]
    dsimp only
    rw [countCalls_append, countCalls_append, countCalls_append, countCalls_replicate]
    simp [countCalls]
  · rw [hsend]
    dsimp only
    rw [countCalls_append, countCalls_append, countCalls_append, countCalls_replicate]
    simp [countCalls]

/-- C3 amended, concrete run: chat 1 with a cached thread and a status
stream stuck at `in_progress`. -/
theorem C3_amended_timeout_witness :
    lookupThread stThread.user_threads 1 = some (some ("t1")) ∧
    (∀ k, alwaysRunning k ≠ RunStatus.completed ∧
      isHardFail (alwaysRunning k) = false) ∧
    (send_message_to_assistant (engWith alwaysRunning) stThread 1 ("hola")
       = (msgGenericError,
          { stThread with calls := stThread.calls ++ [RemoteCall.appendMessage]
              ++ [RemoteCall.createRun] ++ List.replicate 62 RemoteCall.retrieveRun }) ∧
     countCalls (send_message_to_assistant (engWith alwaysRunning)
        stThread 1 ("hola")).2.calls RemoteCall.cancelRun
       = countCalls stThread.calls RemoteCall.cancelRun ∧
     countCalls (send_message_to_assistant (engWith alwaysRunning)
        stThread 1 ("hola")).2.calls RemoteCall.retrieveRun
       = countCalls stThread.calls RemoteCall.retrieveRun + 62) :=
  ⟨rfl, fun _ => ⟨fun h => RunStatus.noConfusion h, rfl⟩,
   C3_amended_timeout alwaysRunning stThread 1 ("t1") ("hola") rfl
     (fun _ => ⟨fun h => RunStatus.noConfusion h, rfl⟩)⟩

/-- A newest assistant message carrying a citation marker, as the OpenAI
assistants API emits them. -/
def citedReply : String := "Hola 【4:0†fuente】"

/-- C4 counterexample: on the completed path the turn returns
`messages.data[0].content[0].text.value` verbatim (line 633) — the
citation marker survives into the returned text, refuting "any
citation/source markers are stripped out". -/
theorem C4_counterexample :
    (send_message_to_assistant (engCompleted citedReply) stThread 1 ("hola")).1 = citedReply ∧
    ¬ ('【' ∉ (send_message_to_assistant (engCompleted citedReply) stThread 1 ("hola")).1.data) :=
  ⟨rfl, by decide⟩

/-- C4 amended: when the job completes, the engine's most recent output
message text is returned to the caller verbatim — whatever it contains,
including citation markers — and appended unchanged to the in-memory
history; no stripping of any kind is performed. -/
theorem C4_amended_verbatim (v : String) :
    (send_message_to_assistant (engCompleted v) stThread 1 ("hola")).1 = v ∧
    (send_message_to_assistant (engCompleted v) stThread 1 ("hola")).2.conversation_history
      = stThread.conversation_history ++ [(1, roleAssistant, v)] :=
  ⟨rfl, rfl⟩

/-- A text turn that trips the product-keyword check of line 660. -/
def inComprar : String := "quiero comprar proteina"

/-- C6 counterexample: the turn "quiero comprar proteina" completes
successfully — the user receives the formatted product reply — yet zero
audit rows are appended, because line 661 returns from
`process_text_message` before the `save_conversation` calls of
lines 671-672 are reached.  This refutes "exactly two audit rows are
appended" for every successfully completed text turn. -/
theorem C6_counterexample :
    (process_text_message (engCompleted ("r")) frOk emptyState 1 inComprar).2.conversations
      = [] ∧
    (process_text_message (engCompleted ("r")) frOk emptyState 1 inComprar).1
      = msgProductsHeader ++ ("- Prote: Buena (link: x)") ∧
    ¬ ((process_text_message (engCompleted ("r")) frOk emptyState 1 inComprar).2.conversations.length
        = emptyState.conversations.length + 2) :=
  ⟨rfl, rfl, by decide⟩

/-- C6 amended: for a text turn that is non-empty, contains no product
keyword, and receives a non-empty assistant reply, exactly two audit rows
are appended — the user row first, then the assistant row; turns diverted
to the product path append none. -/
theorem C6_amended_audit_pair (eng : EngineClient) (fr : FetchResult) (st : BotState)
    (chat_id : Nat) (msg : String)
    (hne : ¬ (strTrim msg = ("")))
    (hkw : keywords.any (fun kw => containsSub kw.data (strLower msg).data) = false)
    (hresp : ¬ (strTrim (send_message_to_assistant eng st chat_id msg).1 = (""))) :
    (process_text_message eng fr st chat_id msg).1
      = (send_message_to_assistant eng st chat_id msg).1 ∧
    (process_text_message eng fr st chat_id msg).2.conversations
      = st.conversations
        ++ [(chat_id, roleUser, msg),
            (chat_id, roleAssistant, (send_message_to_assistant eng st chat_id msg).1)] := by
  have hconv := (send_frame eng st chat_id msg).2
  unfold process_text_message
  rw [if_neg hne]
  rw [if_neg (show ¬ (keywords.any (fun kw => containsSub kw.data (strLower msg).data) = true)
    by simp [hkw])]
  dsimp only
  rw [if_neg hresp]
  refine ⟨rfl, ?_⟩
  dsimp only [save_conversation]
  rw [hconv, List.append_assoc]
  rfl

/-- C6 amended, concrete run: the turn "hola" answered by "respuesta". -/
theorem C6_amended_audit_pair_witness :
    ¬ (strTrim ("hola") = ("")) ∧
    keywords.any (fun kw => containsSub kw.data (strLower ("hola")).data) = false ∧
    ¬ (strTrim (send_message_to_assistant (engCompleted ("respuesta")) emptyState 1 ("hola")).1
        = ("")) ∧
    ((process_text_message (engCompleted ("respuesta")) frOk emptyState 1 ("hola")).1
       = (send_message_to_assistant (engCompleted ("respuesta")) emptyState 1 ("hola")).1 ∧
     (process_text_message (engCompleted ("respuesta")) frOk emptyState 1 ("hola")).2.conversations
       = emptyState.conversations
         ++ [(1, roleUser, ("hola")),
             (1, roleAssistant,
              (send_message_to_assistant (engCompleted ("respuesta")) emptyState 1 ("hola")).1)]) :=
  ⟨by decide, by decide, by decide,
   C6_amended_audit_pair (engCompleted ("respuesta")) frOk emptyState 1 ("hola")
     (by decide) (by decide) (by decide)⟩

/-- C7: when recognition reports the voice note as unintelligible, the
handler sends exactly the specific ask-to-retry reply and the state is
untouched except for the downloaded file — no audit row is written, no
remote call is made, no turn is processed.  The service-unavailable path
sends its own distinct reply, and the two are also distinct from the
generic voice-error reply, so the two error kinds are never collapsed. -/
theorem C7_unintelligible_distinct (eng : EngineClient) (fr : FetchResult) (st : BotState)
    (chat_id : Nat) :
    handle_voice_message eng fr { download := Except.ok (), recog := RecogResult.unknownValue }
        st chat_id
      = ([msgVoiceUnintelligible],
         { st with files := addFile st.files (toString chat_id ++ voiceSuff) }) ∧
    handle_voice_message eng fr { download := Except.ok (), recog := RecogResult.requestError }
        st chat_id
      = ([msgVoiceService],
         { st with files := addFile st.files (toString chat_id ++ voiceSuff) }) ∧
    msgVoiceUnintelligible ≠ msgVoiceService ∧
    msgVoiceUnintelligible ≠ msgVoiceGeneric :=
  ⟨rfl, rfl, by decide, by decide⟩

/-- A whitespace-only inbound text. -/
def inSpaces : String := "   "

/-- C8 counterexample: a whitespace-only message is an instance of the
claim's "invalid or empty user text", yet `handle_message` returns at
line 865 without sending anything — zero user-facing messages instead of
the claimed exactly one. -/
theorem C8_counterexample :
    handle_message (engCompleted ("r")) frOk emptyState 1 inSpaces = ([], emptyState) ∧
    ¬ ((handle_message (engCompleted ("r")) frOk emptyState 1 inSpaces).1.length = 1) :=
  ⟨rfl, by decide⟩

/-- C8 amended: for a non-empty inbound text, every turn — product path,
assistant path, or any failure inside them — ends in exactly one
user-facing message; a whitespace-only text is silently dropped with no
message at all. -/
theorem C8_amended_one_reply (eng : EngineClient) (fr : FetchResult) (st : BotState)
    (chat_id : Nat) (text : String)
    (h : ¬ (strTrim text = (""))) :
    (handle_message eng fr st chat_id text).1.length = 1 := by
  unfold handle_message
  dsimp only
  rw [if_neg h]
  split
  · split
    · rfl
    · rfl
  · split
    · rfl
    · rfl

/-- C8 amended, concrete run: the turn "hola". -/
theorem C8_amended_one_reply_witness :
    ¬ (strTrim ("hola") = ("")) ∧
    (handle_message (engCompleted ("r")) frOk emptyState 1 ("hola")).1.length = 1 :=
  ⟨by decide, C8_amended_one_reply (engCompleted ("r")) frOk emptyState 1 ("hola") (by decide)⟩

/-- The temporary voice-note path for chat 7. -/
def voicePath7 : String := "7_voice_note.ogg"

/-- C9 counterexample: after a fully successful voice turn (download,
transcription and processing all succeed) the downloaded artifact
`7_voice_note.ogg` is still on disk — the source contains no removal on
any path — refuting "removes every temporary audio artifact it creates on
every exit path". -/
theorem C9_counterexample :
    voicePath7 ∈ (handle_voice_message (engCompleted ("r")) frOk
        { download := Except.ok (), recog := RecogResult.ok ("hola") } emptyState 7).2.files ∧
    ¬ (voicePath7 ∉ (handle_voice_message (engCompleted ("r")) frOk
        { download := Except.ok (), recog := RecogResult.ok ("hola") } emptyState 7).2.files) :=
  ⟨by decide, by decide⟩

/-- C9 amended: the handler never removes the downloaded artifact — on
every exit path that created it (successful transcription, unintelligible
audio, recognition-service failure, unexpected recognition error) the
file is still present afterwards. -/
theorem C9_amended_artifact_persists (eng : EngineClient) (fr : FetchResult)
    (recog : RecogResult) (st : BotState) (chat_id : Nat) :
    (toString chat_id ++ voiceSuff)
      ∈ (handle_voice_message eng fr { download := Except.ok (), recog := recog }
           st chat_id).2.files := by
  unfold handle_voice_message
  dsimp only
  cases recog with
  | ok t =>
      dsimp only
      rw [ptm_files]
      exact mem_addFile st.files (toString chat_id ++ voiceSuff)
  | unknownValue => exact mem_addFile st.files (toString chat_id ++ voiceSuff)
  | requestError => exact mem_addFile st.files (toString chat_id ++ voiceSuff)
  | otherError => exact mem_addFile st.files (toString chat_id ++ voiceSuff)

/-- C10: the whitelist check is fail-closed.  When the spreadsheet lookup
raises, `is_user_whitelisted` returns `false` for every email
(lines 950-952), and `verify_email` then stops at the not-authorized
reply: the returned state equals the input state, so no thread is
created, nothing is stored in `user_threads`, and no user row is
persisted while the whitelist store is unreachable. -/
theorem C10_fail_closed (eng : EngineClient) (st : BotState) (chat_id : Nat)
    (email : String) (username : Option String)
    (h1 : (strLower (strTrim email)).data.contains '@' = true)
    (h2 : (strLower (strTrim email)).data.contains '.' = true) :
    (∀ e : String, is_user_whitelisted errSheets e = false) ∧
    verify_email errSheets eng st chat_id email username = ([msgNotAuthorized], st) := by
  refine ⟨fun e => rfl, ?_⟩
  unfold verify_email
  dsimp only
  rw [h1, h2]
  rfl

/-- C10, concrete run: a well-formed email against an unreachable
whitelist store. -/
theorem C10_fail_closed_witness :
    (strLower (strTrim ("a@b.com"))).data.contains '@' = true ∧
    (strLower (strTrim ("a@b.com"))).data.contains '.' = true ∧
    ((∀ e : String, is_user_whitelisted errSheets e = false) ∧
     verify_email errSheets (engCompleted ("r")) emptyState 1 ("a@b.com") none
       = ([msgNotAuthorized], emptyState)) :=
  ⟨by decide, by decide,
   C10_fail_closed (engCompleted ("r")) emptyState 1 ("a@b.com") none (by decide) (by decide)⟩

end CoachBot
